import Mathlib

/-!
Shallow embedding of the wxgo access-token manager (package `token` and the
public `wxgo` surface).  Pure Go code (expiry checks, backend resolution,
backoff arithmetic) is translated directly; effectful code
(`Manager.GetAccessToken`, `RedisLocker.Lock`) is embedded as a pure function
of an explicit environment recording the outcome of each external interaction
(cache reads, SetNX calls, the context's cancellation signal, the HTTP
exchange), and the result additionally records which effects were performed
(mutex, distributed lock, remote fetch, cache write).  Time is modelled as an
integer count of nanoseconds, matching Go's `time.Duration`/`time.Time`
resolution.
-/

namespace Wxgo

/-- Machine-readable result codes, from internal/token/errors.go. -/
inductive Code where
  | ok
  | missingAppID
  | missingAppSecret
  | cacheGet
  | cacheSet
  | http
  | apiError
  | invalidResponse
  | lock
  | unknown
  deriving DecidableEq, Repr

/-- Go `error` values that the token package can produce.  `wrapped` models
`fmt.Errorf("...: %w", err)`; the sentinel errors of errors.go are their own
constructors.  Backend-originated errors (redis failures, cache failures)
carry an abstract tag. -/
inductive GoErr where
  | missingAppID
  | missingAppSecret
  | invalidResponse
  | apiError (errcode : Int) (errmsg : String)
  | lockAcquireFailed
  | lockBackendMissing
  | ctxCanceled
  | backendErr (tag : Nat)
  | httpStatus (status : Int)
  | wrapped (msg : String) (inner : GoErr)
  deriving DecidableEq, Repr

/-- internal/token/types.go: Access-token record. `expiresAt` is an absolute
timestamp in nanoseconds. -/
structure TokenInfo where
  accessToken : String
  expiresIn : Int
  expiresAt : Int
  deriving DecidableEq, Repr

/-- Five minutes in nanoseconds (the refresh skew of TokenInfo.IsExpired). -/
def fiveMinutes : Int := 300000000000

/-- TokenInfo.IsExpired: `time.Now().Add(5*time.Minute).After(t.ExpiresAt)`,
i.e. the token counts as expired when now + 5min is strictly after ExpiresAt. -/
def TokenInfo.IsExpired (t : TokenInfo) (now : Int) : Bool :=
  decide (t.expiresAt < now + fiveMinutes)

/-- The WeChat token API response body, as decoded in fetchTokenFromWeChat. -/
structure WeChatAPIResp where
  accessToken : String
  expiresIn : Int
  errcode : Int
  errmsg : String
  deriving DecidableEq, Repr

/-- Outcomes of the external HTTP interaction performed by
fetchTokenFromWeChat: request construction, transport, status code, body
read, and JSON decoding. -/
structure FetchEnv where
  newRequestErr : Option GoErr
  doErr : Option GoErr
  statusCode : Int
  readBodyErr : Option GoErr
  unmarshalFails : Bool
  resp : WeChatAPIResp
  deriving DecidableEq, Repr

/-- Manager.fetchTokenFromWeChat (code.go): embeds the decision tree over the
HTTP outcome.  On success the record's ExpiresAt is now + ExpiresIn seconds. -/
def fetchTokenFromWeChat (fe : FetchEnv) (now : Int) :
    Except (Code × GoErr) TokenInfo :=
  match fe.newRequestErr with
  | some e => .error (Code.http, .wrapped "create request" e)
  | none =>
  match fe.doErr with
  | some e => .error (Code.http, .wrapped "request wechat api" e)
  | none =>
  if fe.statusCode < 200 ∨ 300 ≤ fe.statusCode then
    .error (Code.http, .httpStatus fe.statusCode)
  else
  match fe.readBodyErr with
  | some e => .error (Code.http, .wrapped "read response" e)
  | none =>
  if fe.unmarshalFails then
    .error (Code.invalidResponse, .wrapped "unmarshal" .invalidResponse)
  else if fe.resp.errcode ≠ 0 then
    .error (Code.apiError, .apiError fe.resp.errcode fe.resp.errmsg)
  else if fe.resp.accessToken = "" then
    .error (Code.invalidResponse, .invalidResponse)
  else
    .ok { accessToken := fe.resp.accessToken
          expiresIn := fe.resp.expiresIn
          expiresAt := now + fe.resp.expiresIn * 1000000000 }

deriving instance DecidableEq for Except

/-- Environment of one Manager.GetAccessToken call: the three cache reads,
whether a distributed locker is configured and what its Lock call returns,
the HTTP outcome, and the cache-write outcome. -/
structure ManagerEnv where
  now : Int
  get1 : Except GoErr (Option TokenInfo)
  get2 : Except GoErr (Option TokenInfo)
  get3 : Except GoErr (Option TokenInfo)
  lockConfigured : Bool
  lockResult : Except GoErr Unit
  fetchEnv : FetchEnv
  setResult : Option GoErr
  deriving DecidableEq, Repr

/-- Result of GetAccessToken plus a trace of which effects occurred. -/
structure GetResult where
  token : String
  code : Code
  err : Option GoErr
  mutexAcquired : Bool
  distLockCalled : Bool
  fetchCalled : Bool
  setCalled : Bool
  deriving DecidableEq, Repr

/-- Go's `token != nil && !token.IsExpired()` guard: the value to return on a
cache hit, if the read produced a usable record. -/
def hitToken (t : Option TokenInfo) (now : Int) : Option String :=
  match t with
  | none => none
  | some ti => if ti.IsExpired now then none else some ti.accessToken

/-- The tail of GetAccessToken once the mutex is held and the distributed
lock step is past (lock acquired, or no locker configured): third cache
read, remote fetch, cache write. -/
def afterLock (env : ManagerEnv) (lockCalled : Bool) : GetResult :=
  match env.get3 with
  | .error e =>
      ⟨"", Code.cacheGet, some (.wrapped "get token from cache" e),
        true, lockCalled, false, false⟩
  | .ok t3 =>
    match hitToken t3 env.now with
    | some s => ⟨s, Code.ok, none, true, lockCalled, false, false⟩
    | none =>
      match fetchTokenFromWeChat env.fetchEnv env.now with
      | .error (c, e) => ⟨"", c, some e, true, lockCalled, true, false⟩
      | .ok newTok =>
        match env.setResult with
        | some e =>
            ⟨newTok.accessToken, Code.cacheSet,
              some (.wrapped "set token to cache" e),
              true, lockCalled, true, true⟩
        | none => ⟨newTok.accessToken, Code.ok, none, true, lockCalled, true, true⟩

/-- Manager.GetAccessToken (code.go): cache read; on a usable hit return
immediately; otherwise take the in-process mutex, re-read; then acquire the
distributed lock if configured (an error aborts with CodeLock); re-read; then
fetch from WeChat and write the cache. -/
def getAccessToken (env : ManagerEnv) : GetResult :=
  match env.get1 with
  | .error e =>
      ⟨"", Code.cacheGet, some (.wrapped "get token from cache" e),
        false, false, false, false⟩
  | .ok t1 =>
    match hitToken t1 env.now with
    | some s => ⟨s, Code.ok, none, false, false, false, false⟩
    | none =>
      match env.get2 with
      | .error e =>
          ⟨"", Code.cacheGet, some (.wrapped "get token from cache" e),
            true, false, false, false⟩
      | .ok t2 =>
        match hitToken t2 env.now with
        | some s => ⟨s, Code.ok, none, true, false, false, false⟩
        | none =>
          if env.lockConfigured then
            match env.lockResult with
            | .error e => ⟨"", Code.lock, some e, true, true, false, false⟩
            | .ok _ => afterLock env true
          else afterLock env false

/-! Backend resolution (config.go, code.go: resolveCache, resolveLocker,
NewManager).  A caller-supplied custom cache is abstracted by whether its
dynamic type also implements the TokenLocker interface (the `cache.(TokenLocker)`
assertion with the non-nil check); the built-in RedisCache, RedisClusterCache
and MemoryCache implement only the Cache interface. -/

/-- A caller-supplied custom Cache implementation. -/
structure CustomCache where
  implementsLocker : Bool
  deriving DecidableEq, Repr

/-- The Cache implementation chosen by resolveCache. -/
inductive CacheImpl where
  | custom (cc : CustomCache)
  | redisCache
  | redisClusterCache
  | memoryCache
  deriving DecidableEq, Repr

/-- cacheKind (code.go). -/
inductive CacheKind where
  | custom
  | redis
  | redisCluster
  | memory
  deriving DecidableEq, Repr

/-- The TokenLocker chosen by resolveLocker: the custom cache itself, or a
RedisLocker over the cluster/single-node client. -/
inductive LockerImpl where
  | fromCache (cc : CustomCache)
  | redisLocker (cluster : Bool)
  deriving DecidableEq, Repr

/-- Config (config.go).  The redis client fields record non-nil-ness. -/
structure Config where
  appID : String
  appSecret : String
  cache : Option CustomCache
  redisClient : Bool
  redisClusterClient : Bool
  distLockStrategy : String
  deriving DecidableEq, Repr

/-- Config.Validate. -/
def Config.Validate (c : Config) : Option GoErr :=
  if c.appID = "" then some .missingAppID
  else if c.appSecret = "" then some .missingAppSecret
  else none

/-- Config.lockStrategy: defaults to auto when unset. -/
def Config.lockStrategy (c : Config) : String :=
  if c.distLockStrategy = "" then "auto" else c.distLockStrategy

/-- resolveCache (code.go): priority Cache > RedisClusterClient > RedisClient
> memory. -/
def resolveCache (c : Config) : CacheImpl × CacheKind :=
  match c.cache with
  | some cc => (.custom cc, .custom)
  | none =>
    if c.redisClusterClient then (.redisClusterCache, .redisCluster)
    else if c.redisClient then (.redisCache, .redis)
    else (.memoryCache, .memory)

/-- The `cache.(TokenLocker)` type assertion together with the non-nil check:
only a custom cache may additionally implement TokenLocker. -/
def cacheAsLocker (ci : CacheImpl) : Option LockerImpl :=
  match ci with
  | .custom cc => if cc.implementsLocker then some (.fromCache cc) else none
  | _ => none

/-- resolveLocker (code.go). -/
def resolveLocker (c : Config) (kind : CacheKind) (cache : CacheImpl)
    (strategy : String) : Except GoErr (Option LockerImpl) :=
  if strategy = "off" then .ok none
  else if strategy = "auto" ∨ strategy = "on" then
    match cacheAsLocker cache with
    | some l => .ok (some l)
    | none =>
      if kind = .redisCluster ∧ c.redisClusterClient then
        .ok (some (.redisLocker true))
      else if kind = .redis ∧ c.redisClient then
        .ok (some (.redisLocker false))
      else if strategy = "on" then .error .lockBackendMissing
      else .ok none
  else .ok none

/-- defaultLockTTL = 15s, in nanoseconds. -/
def defaultLockTTL : Int := 15000000000

/-- Manager state resolved at construction (code.go). -/
structure Manager where
  cache : CacheImpl
  distLocker : Option LockerImpl
  lockStrategy : String
  lockTTL : Int
  selectedKind : CacheKind
  deriving DecidableEq, Repr

/-- NewManager (code.go): validate, resolve the cache, resolve the locker. -/
def NewManager (c : Config) : Except GoErr Manager :=
  match c.Validate with
  | some e => .error e
  | none =>
    let rc := resolveCache c
    let strategy := c.lockStrategy
    match resolveLocker c rc.2 rc.1 strategy with
    | .error e => .error e
    | .ok locker =>
        .ok { cache := rc.1, distLocker := locker, lockStrategy := strategy,
              lockTTL := defaultLockTTL, selectedKind := rc.2 }

/-! Distributed lock (internal/token/lock_redis.go).  The jitter draw
`randv2.Float64()` is modelled as a rational in [0,1) supplied by the
environment; `time.Duration(float64)` truncation is the integer floor
(all values involved are nonnegative). -/

/-- Base backoff interval, 250ms in ns. -/
def redisLockRetryBaseInterval : Int := 250000000

/-- Maximum backoff interval, 900ms in ns. -/
def redisLockRetryMaxInterval : Int := 900000000

/-- Maximum number of SetNX attempts. -/
def redisLockMaxRetry : Nat := 3

/-- Jitter percentage (0.2 = ±20%). -/
def redisLockJitterPercent : ℚ := 2/10

/-- jitterInterval: spreads the computed interval uniformly over
[base·(1-p), base·(1+p)), given the random draw r; the source's local
bounds base·(1-p) and base·(1+p) are inlined, and the final float-to-
Duration conversion is the floor (every value involved is nonnegative). -/
def jitterInterval (base : Int) (r : ℚ) : Int :=
  if base ≤ 0 ∨ redisLockJitterPercent ≤ 0 then base
  else
    ⌊(base : ℚ) * (1 - redisLockJitterPercent) +
      r * ((base : ℚ) * (1 + redisLockJitterPercent) -
           (base : ℚ) * (1 - redisLockJitterPercent))⌋

/-- backoffInterval: base interval doubled per attempt (1<<attempt), capped
at the maximum, then jittered. -/
def backoffInterval (attempt : Int) (r : ℚ) : Int :=
  let a := if attempt < 0 then 0 else attempt
  let interval := redisLockRetryBaseInterval * 2 ^ a.toNat
  let capped :=
    if interval > redisLockRetryMaxInterval then redisLockRetryMaxInterval
    else interval
  jitterInterval capped r

/-- Outcome of one SetNX(key, lockVal, ttl) call. -/
inductive SetNXRes where
  | err (e : GoErr)
  | acquired
  | held
  deriving DecidableEq, Repr

/-- Environment of one RedisLocker.Lock call: per-attempt SetNX outcomes,
whether the caller's context fires during the wait after attempt i, and the
random jitter draw for attempt i. -/
structure LockEnv where
  setnx : Nat → SetNXRes
  cancelledDuringWait : Nat → Bool
  rand : Nat → ℚ

/-- Result of a Lock call: `.ok ()` means the lock is held (an unlock handle
was returned); `attempts` lists the SetNX attempt indices made; `waits`
records each wait entered as (attempt index, computed backoff duration). -/
structure LockOutcome where
  result : Except GoErr Unit
  attempts : List Nat
  waits : List (Nat × Int)
  deriving DecidableEq, Repr

/-- The retry loop of RedisLocker.Lock, with explicit fuel (the source loop
runs i = 0,1,2 and breaks after the last attempt without waiting). -/
def lockLoop (env : LockEnv) : Nat → Nat → LockOutcome
  | _, 0 => ⟨.error .lockAcquireFailed, [], []⟩
  | i, fuel + 1 =>
    match env.setnx i with
    | .err e => ⟨.error e, [i], []⟩
    | .acquired => ⟨.ok (), [i], []⟩
    | .held =>
      if i = redisLockMaxRetry - 1 then ⟨.error .lockAcquireFailed, [i], []⟩
      else
        let w := backoffInterval i (env.rand i)
        if env.cancelledDuringWait i then ⟨.error .ctxCanceled, [i], [(i, w)]⟩
        else
          let r := lockLoop env (i + 1) fuel
          ⟨r.result, i :: r.attempts, (i, w) :: r.waits⟩

/-- RedisLocker.Lock. -/
def redisLockerLock (env : LockEnv) : LockOutcome :=
  lockLoop env 0 redisLockMaxRetry

/-! Cache variants (internal/token/cache_redis.go, MemoryCache in
lock_redis.go's file blob).  A redis backend entry records the serialized
record (serialization modelled as the identity, being round-trip safe JSON)
together with the native expiry the SET call attached; the in-memory store is
a plain Go map from key to record. -/

/-- An entry in a redis or redis-cluster backend. -/
structure RedisEntry where
  record : TokenInfo
  nativeTTL : Int
  deriving DecidableEq, Repr

/-- State of a redis backend. -/
def RedisStore : Type := String → Option RedisEntry

/-- RedisCache.Set: `r.client.Set(ctx, key, data, ttl)` — the entry is written
with the backend's native expiry set to ttl. -/
def RedisCache.Set (s : RedisStore) (key : String) (t : TokenInfo)
    (ttl : Int) : RedisStore :=
  fun k => if k = key then some ⟨t, ttl⟩ else s k

/-- RedisClusterCache.Set: identical to RedisCache.Set over the cluster
client. -/
def RedisClusterCache.Set (s : RedisStore) (key : String) (t : TokenInfo)
    (ttl : Int) : RedisStore :=
  fun k => if k = key then some ⟨t, ttl⟩ else s k

/-- State of the in-memory cache: the map field of MemoryCache. -/
def MemStore : Type := String → Option TokenInfo

/-- MemoryCache.Set: `m.store[key] = token`; the ttl parameter does not occur
in the body. -/
def MemoryCache.Set (s : MemStore) (key : String) (t : TokenInfo)
    (ttl : Int) : MemStore :=
  fun k => if k = key then some t else s k

/-! Helper lemmas shared by the claim theorems. -/

/-- A usable hit names a record of the read with its token string. -/
theorem hitToken_some (t : Option TokenInfo) (now : Int) (s : String)
    (h : hitToken t now = some s) :
    ∃ ti, t = some ti ∧ s = ti.accessToken ∧ ti.IsExpired now = false := by
  cases t with
  | none => simp [hitToken] at h
  | some ti =>
    unfold hitToken at h
    by_cases hx : ti.IsExpired now <;> simp [hx] at h
    exact ⟨ti, rfl, h.symm, by simp [hx]⟩

/-- Shared tail: a lock error aborts GetAccessToken with CodeLock, the raw
lock error, and no fetch. -/
theorem getAccessToken_lockErr (env : ManagerEnv) (e : GoErr)
    (t1 t2 : Option TokenInfo)
    (h1 : env.get1 = .ok t1) (h2 : hitToken t1 env.now = none)
    (h3 : env.get2 = .ok t2) (h4 : hitToken t2 env.now = none)
    (h5 : env.lockConfigured = true) (h6 : env.lockResult = .error e) :
    getAccessToken env = ⟨"", Code.lock, some e, true, true, false, false⟩ := by
  unfold getAccessToken
  rw [h1]
  simp only [h2, h3, h4, h5, h6, if_true]

/-- C1: lock acquisition error ⇒ CodeLock, empty token, no remote fetch. -/
theorem claim_C1 (env : ManagerEnv) (e : GoErr) (t1 t2 : Option TokenInfo)
    (h1 : env.get1 = .ok t1) (h2 : hitToken t1 env.now = none)
    (h3 : env.get2 = .ok t2) (h4 : hitToken t2 env.now = none)
    (h5 : env.lockConfigured = true) (h6 : env.lockResult = .error e) :
    (getAccessToken env).token = "" ∧
    (getAccessToken env).code = Code.lock ∧
    (getAccessToken env).err = some e ∧
    (getAccessToken env).fetchCalled = false :=
  by rw [getAccessToken_lockErr env e t1 t2 h1 h2 h3 h4 h5 h6]; exact ⟨rfl, rfl, rfl, rfl⟩

/-- Witness for C1 at a concrete environment. -/
theorem claim_C1_witness :
    (getAccessToken ⟨0, .ok none, .ok none, .ok none, true,
        .error .lockAcquireFailed,
        ⟨none, none, 200, none, false, ⟨"t", 7200, 0, ""⟩⟩, none⟩).token = "" ∧
    (getAccessToken ⟨0, .ok none, .ok none, .ok none, true,
        .error .lockAcquireFailed,
        ⟨none, none, 200, none, false, ⟨"t", 7200, 0, ""⟩⟩, none⟩).code = Code.lock ∧
    (getAccessToken ⟨0, .ok none, .ok none, .ok none, true,
        .error .lockAcquireFailed,
        ⟨none, none, 200, none, false, ⟨"t", 7200, 0, ""⟩⟩, none⟩).err =
      some .lockAcquireFailed ∧
    (getAccessToken ⟨0, .ok none, .ok none, .ok none, true,
        .error .lockAcquireFailed,
        ⟨none, none, 200, none, false, ⟨"t", 7200, 0, ""⟩⟩, none⟩).fetchCalled = false :=
  claim_C1 _ GoErr.lockAcquireFailed none none rfl rfl rfl rfl rfl rfl

/-- C2: a usable record on the first cache read is returned immediately with
CodeOK and nil error; no mutex, no distributed lock, no fetch. -/
theorem claim_C2 (env : ManagerEnv) (ti : TokenInfo)
    (h1 : env.get1 = .ok (some ti)) (h2 : ti.IsExpired env.now = false) :
    getAccessToken env =
      ⟨ti.accessToken, Code.ok, none, false, false, false, false⟩ := by
  unfold getAccessToken
  rw [h1]
  simp [hitToken, h2]

/-- Witness for C2 at a concrete environment. -/
theorem claim_C2_witness :
    getAccessToken ⟨0, .ok (some ⟨"tok", 7200, 1000000000000⟩), .ok none,
        .ok none, false, .ok (),
        ⟨none, none, 200, none, false, ⟨"t", 7200, 0, ""⟩⟩, none⟩ =
      ⟨"tok", Code.ok, none, false, false, false, false⟩ :=
  claim_C2 _ ⟨"tok", 7200, 1000000000000⟩ rfl rfl

/-- Shared tail: fetch succeeded, the cache write failed. -/
theorem afterLock_setErr (env : ManagerEnv) (lc : Bool) (t3 : Option TokenInfo)
    (newTok : TokenInfo) (e : GoErr)
    (h6 : env.get3 = .ok t3) (h7 : hitToken t3 env.now = none)
    (h8 : fetchTokenFromWeChat env.fetchEnv env.now = .ok newTok)
    (h9 : env.setResult = some e) :
    afterLock env lc =
      ⟨newTok.accessToken, Code.cacheSet,
        some (.wrapped "set token to cache" e), true, lc, true, true⟩ := by
  unfold afterLock
  rw [h6]
  simp only [h7, h8, h9]

/-- C3: when the remote fetch succeeds but Cache.Set fails, the freshly
fetched token is still returned, with CodeCacheSet and a non-nil error. -/
theorem claim_C3 (env : ManagerEnv) (t1 t2 t3 : Option TokenInfo)
    (newTok : TokenInfo) (e : GoErr)
    (h1 : env.get1 = .ok t1) (h2 : hitToken t1 env.now = none)
    (h3 : env.get2 = .ok t2) (h4 : hitToken t2 env.now = none)
    (h5 : env.lockConfigured = false ∨ env.lockResult = .ok ())
    (h6 : env.get3 = .ok t3) (h7 : hitToken t3 env.now = none)
    (h8 : fetchTokenFromWeChat env.fetchEnv env.now = .ok newTok)
    (h9 : env.setResult = some e) :
    (getAccessToken env).token = newTok.accessToken ∧
    (getAccessToken env).code = Code.cacheSet ∧
    (getAccessToken env).err = some (.wrapped "set token to cache" e) ∧
    (getAccessToken env).fetchCalled = true := by
  unfold getAccessToken
  rw [h1]
  simp only [h2, h3, h4]
  rcases h5 with h5 | h5
  · rw [h5]
    simp only [Bool.false_eq_true, if_false,
      afterLock_setErr env false t3 newTok e h6 h7 h8 h9]
    exact ⟨trivial, trivial, trivial, trivial⟩
  · cases hlc : env.lockConfigured
    · simp only [Bool.false_eq_true, if_false,
        afterLock_setErr env false t3 newTok e h6 h7 h8 h9]
      exact ⟨trivial, trivial, trivial, trivial⟩
    · simp only [if_true, h5,
        afterLock_setErr env true t3 newTok e h6 h7 h8 h9]
      exact ⟨trivial, trivial, trivial, trivial⟩

/-- Witness for C3 at a concrete environment. -/
theorem claim_C3_witness :
    (getAccessToken ⟨0, .ok none, .ok none, .ok none, false, .ok (),
        ⟨none, none, 200, none, false, ⟨"fresh", 7200, 0, ""⟩⟩,
        some (.backendErr 0)⟩).token = "fresh" ∧
    (getAccessToken ⟨0, .ok none, .ok none, .ok none, false, .ok (),
        ⟨none, none, 200, none, false, ⟨"fresh", 7200, 0, ""⟩⟩,
        some (.backendErr 0)⟩).code = Code.cacheSet ∧
    (getAccessToken ⟨0, .ok none, .ok none, .ok none, false, .ok (),
        ⟨none, none, 200, none, false, ⟨"fresh", 7200, 0, ""⟩⟩,
        some (.backendErr 0)⟩).err =
      some (.wrapped "set token to cache" (.backendErr 0)) ∧
    (getAccessToken ⟨0, .ok none, .ok none, .ok none, false, .ok (),
        ⟨none, none, 200, none, false, ⟨"fresh", 7200, 0, ""⟩⟩,
        some (.backendErr 0)⟩).fetchCalled = true :=
  claim_C3 _ none none none ⟨"fresh", 7200, 7200000000000⟩ (.backendErr 0)
    rfl rfl rfl rfl (Or.inl rfl) rfl rfl rfl rfl

/-- Counterexample to C4 as stated: at the exact boundary now + 5min =
ExpiresAt, IsExpired returns false although now + 5min is not strictly
before ExpiresAt, so the claimed biconditional with strict < fails. -/
theorem claim_C4_counterexample :
    ¬ ((TokenInfo.IsExpired ⟨"t", 300, 300000000000⟩ 0 = false) ↔
        ((0 : Int) + fiveMinutes < (300000000000 : Int))) := by
  decide

/-- C4 (amended): IsExpired returns false iff now +5min ≤ ExpiresAt (the
boundary instant counts as still usable); a record expiring in 4 minutes is
treated as expired. -/
theorem claim_C4 (t : TokenInfo) (now : Int) :
    (t.IsExpired now = false ↔ now + fiveMinutes ≤ t.expiresAt) ∧
    (t.expiresAt = now + 240000000000 → t.IsExpired now = true) := by
  constructor
  · simp [TokenInfo.IsExpired, fiveMinutes]
  · intro h
    simp [TokenInfo.IsExpired, h, fiveMinutes]

/-- Witness for C4 (amended) at a concrete record. -/
theorem claim_C4_witness :
    TokenInfo.IsExpired ⟨"x", 240, 240000000000⟩ 0 = true :=
  (claim_C4 ⟨"x", 240, 240000000000⟩ 0).2 rfl

/-- C5: with a chosen cache that implements no locker capability and is not
a redis / redis-cluster backend, strategy `on` fails construction with the
lock-backend-missing error while strategy `auto` constructs a Manager with
no locker. -/
theorem resolveLocker_noBackend_on (c : Config) (kind : CacheKind)
    (cache : CacheImpl) (hL : cacheAsLocker cache = none)
    (h1 : kind ≠ CacheKind.redis) (h2 : kind ≠ CacheKind.redisCluster) :
    resolveLocker c kind cache "on" = .error .lockBackendMissing := by
  unfold resolveLocker
  rw [if_neg (by decide : ¬ ("on" : String) = "off")]
  rw [if_pos (by decide : ("on" : String) = "auto" ∨ ("on" : String) = "on")]
  simp only [hL]
  rw [if_neg (fun h => h2 h.1)]
  rw [if_neg (fun h => h1 h.1)]
  simp

theorem resolveLocker_noBackend_auto (c : Config) (kind : CacheKind)
    (cache : CacheImpl) (hL : cacheAsLocker cache = none)
    (h1 : kind ≠ CacheKind.redis) (h2 : kind ≠ CacheKind.redisCluster) :
    resolveLocker c kind cache "auto" = .ok none := by
  unfold resolveLocker
  rw [if_neg (by decide : ¬ ("auto" : String) = "off")]
  rw [if_pos (by decide : ("auto" : String) = "auto" ∨ ("auto" : String) = "on")]
  simp only [hL]
  rw [if_neg (fun h => h2 h.1)]
  rw [if_neg (fun h => h1 h.1)]
  simp

/-- NewManager once validation passed, in terms of the resolver calls. -/
theorem NewManager_eq (c : Config) (h : c.Validate = none) :
    NewManager c =
      (match resolveLocker c (resolveCache c).2 (resolveCache c).1
          c.lockStrategy with
        | .error e => .error e
        | .ok locker =>
            .ok { cache := (resolveCache c).1, distLocker := locker,
                  lockStrategy := c.lockStrategy, lockTTL := defaultLockTTL,
                  selectedKind := (resolveCache c).2 }) := by
  unfold NewManager
  rw [h]

/-- C5: with a chosen cache that implements no locker capability and is not
a redis / redis-cluster backend, strategy `on` fails construction with the
lock-backend-missing error while strategy `auto` constructs a Manager with
no locker. -/
theorem claim_C5 (c : Config)
    (hA : c.appID ≠ "") (hB : c.appSecret ≠ "")
    (hL : cacheAsLocker (resolveCache c).1 = none)
    (h1 : (resolveCache c).2 ≠ CacheKind.redis)
    (h2 : (resolveCache c).2 ≠ CacheKind.redisCluster) :
    NewManager { c with distLockStrategy := "on" } =
      .error .lockBackendMissing ∧
    ∃ m, NewManager { c with distLockStrategy := "auto" } = .ok m ∧
      m.distLocker = none := by
  have hrc : ∀ s, resolveCache { c with distLockStrategy := s } =
      resolveCache c := by
    intro s
    cases c
    rfl
  have hval : ∀ s, Config.Validate { c with distLockStrategy := s } = none := by
    intro s
    simp [Config.Validate, hA, hB]
  have hsOn : Config.lockStrategy { c with distLockStrategy := "on" } = "on" := by
    simp [Config.lockStrategy]
  have hsAuto : Config.lockStrategy { c with distLockStrategy := "auto" } =
      "auto" := by
    simp [Config.lockStrategy]
  constructor
  · rw [NewManager_eq _ (hval "on")]
    rw [hsOn, hrc "on",
      resolveLocker_noBackend_on _ _ _ hL h1 h2]
  · rw [NewManager_eq _ (hval "auto")]
    rw [hsAuto, hrc "auto",
      resolveLocker_noBackend_auto _ _ _ hL h1 h2]
    exact ⟨_, rfl, rfl⟩

/-- Witness for C5 at the in-memory default configuration. -/
theorem claim_C5_witness :
    NewManager ⟨"app", "secret", none, false, false, "on"⟩ =
      .error .lockBackendMissing ∧
    ∃ m, NewManager ⟨"app", "secret", none, false, false, "auto"⟩ = .ok m ∧
      m.distLocker = none :=
  claim_C5 ⟨"app", "secret", none, false, false, ""⟩
    (by decide) (by decide) rfl (by decide) (by decide)

/-- C6: resolveCache selects exactly one cache by the fixed priority
custom > redis-cluster > redis > memory, never raising an error for
over-specification. -/
theorem claim_C6 (c : Config) :
    (∀ cc, c.cache = some cc →
        resolveCache c = (.custom cc, .custom)) ∧
    (c.cache = none → c.redisClusterClient = true →
        resolveCache c = (.redisClusterCache, .redisCluster)) ∧
    (c.cache = none → c.redisClusterClient = false → c.redisClient = true →
        resolveCache c = (.redisCache, .redis)) ∧
    (c.cache = none → c.redisClusterClient = false → c.redisClient = false →
        resolveCache c = (.memoryCache, .memory)) := by
  refine ⟨?_, ?_, ?_, ?_⟩ <;> intros <;> simp [resolveCache, *]

/-- Witness for C6: a config over-specifying every backend at once silently
resolves to the caller-supplied custom cache. -/
theorem claim_C6_witness :
    resolveCache ⟨"app", "secret", some ⟨false⟩, true, true, "auto"⟩ =
      (.custom ⟨false⟩, .custom) :=
  (claim_C6 ⟨"app", "secret", some ⟨false⟩, true, true, "auto"⟩).1 ⟨false⟩ rfl

/-- Counterexample to C9 as stated: MemoryCache.Set produces identical
states for two different ttl values, so the in-memory variant attaches no
native expiry equal to the given ttl and the entry cannot self-expire after
ttl. -/
theorem claim_C9_counterexample :
    MemoryCache.Set (fun _ => none) "k" ⟨"tok", 7200, 0⟩ 5 =
      MemoryCache.Set (fun _ => none) "k" ⟨"tok", 7200, 0⟩ 999 ∧
    (5 : Int) ≠ 999 :=
  ⟨rfl, by decide⟩

/-- C9 (amended): the redis and redis-cluster variants write the entry with
the backend's native expiry set to the given ttl; the in-memory variant
stores the record but ignores ttl entirely (no native expiry). -/
theorem claim_C9 (s : RedisStore) (ms : MemStore) (key : String)
    (t : TokenInfo) (ttl ttl2 : Int) :
    RedisCache.Set s key t ttl key = some ⟨t, ttl⟩ ∧
    RedisClusterCache.Set s key t ttl key = some ⟨t, ttl⟩ ∧
    MemoryCache.Set ms key t ttl = MemoryCache.Set ms key t ttl2 ∧
    MemoryCache.Set ms key t ttl key = some t := by
  refine ⟨?_, ?_, rfl, ?_⟩ <;>
    simp [RedisCache.Set, RedisClusterCache.Set, MemoryCache.Set]

/-- The pre-jitter interval of backoffInterval equals min(base·2^i, max). -/
theorem backoffInterval_eq_jitter (i : ℕ) (r : ℚ) :
    backoffInterval (i : ℤ) r =
      jitterInterval (min ((250000000 : ℤ) * 2 ^ i) 900000000) r := by
  have h0 : ¬ ((i : ℤ) < 0) := by
    simp
  simp only [backoffInterval, redisLockRetryBaseInterval,
    redisLockRetryMaxInterval, h0, if_false, Int.toNat_natCast]
  congr 1
  rcases le_or_lt ((250000000 : ℤ) * 2 ^ i) 900000000 with h | h
  · rw [if_neg (not_lt.mpr h), min_eq_left h]
  · rw [if_pos h, min_eq_right h.le]

/-- Jitter over a positive base of the form 5k stays within [4k, 6k]. -/
theorem jitterInterval_bounds (k : ℤ) (hk : 0 < k) (r : ℚ)
    (h0 : 0 ≤ r) (h1 : r < 1) :
    4 * k ≤ jitterInterval (5 * k) r ∧ jitterInterval (5 * k) r ≤ 6 * k := by
  have hcond : ¬ ((5 * k : ℤ) ≤ 0 ∨ redisLockJitterPercent ≤ 0) := by
    rw [redisLockJitterPercent]
    push_neg
    exact ⟨by omega, by norm_num⟩
  unfold jitterInterval
  rw [if_neg hcond]
  have hkq : (0 : ℚ) ≤ (k : ℚ) := by exact_mod_cast hk.le
  constructor
  · apply Int.le_floor.mpr
    rw [redisLockJitterPercent]
    push_cast
    nlinarith [mul_nonneg h0 hkq]
  · have hxle : ((5 * k : ℤ) : ℚ) * (1 - redisLockJitterPercent) +
        r * (((5 * k : ℤ) : ℚ) * (1 + redisLockJitterPercent) -
          ((5 * k : ℤ) : ℚ) * (1 - redisLockJitterPercent)) ≤
        ((6 * k : ℤ) : ℚ) := by
      rw [redisLockJitterPercent]
      push_cast
      nlinarith [mul_nonneg (by linarith : (0 : ℚ) ≤ 1 - r) hkq]
    exact (Int.floor_le_floor hxle).trans_eq (Int.floor_intCast _)

/-- The capped interval is five times a positive integer. -/
theorem baseCapped_five (i : ℕ) :
    ∃ k : ℤ, 0 < k ∧ min ((250000000 : ℤ) * 2 ^ i) 900000000 = 5 * k := by
  refine ⟨min ((50000000 : ℤ) * 2 ^ i) 180000000, ?_, ?_⟩
  · have h : (0 : ℤ) < 50000000 * 2 ^ i := by positivity
    exact lt_min h (by norm_num)
  · rcases le_total ((50000000 : ℤ) * 2 ^ i) 180000000 with h | h
    · rw [min_eq_left h,
        min_eq_left (by linarith : (250000000 : ℤ) * 2 ^ i ≤ 900000000)]
      ring
    · rw [min_eq_right h,
        min_eq_right (by linarith : (900000000 : ℤ) ≤ 250000000 * 2 ^ i)]
      norm_num

/-- backoffInterval(i) lies in the closed interval
[0.8·min(250ms·2^i, 900ms), 1.2·min(250ms·2^i, 900ms)]. -/
theorem backoffInterval_bounds (i : ℕ) (r : ℚ) (h0 : 0 ≤ r) (h1 : r < 1) :
    ((4 : ℚ)/5) * ((min ((250000000 : ℤ) * 2 ^ i) 900000000 : ℤ) : ℚ) ≤
      (backoffInterval (i : ℤ) r : ℚ) ∧
    (backoffInterval (i : ℤ) r : ℚ) ≤
      ((6 : ℚ)/5) * ((min ((250000000 : ℤ) * 2 ^ i) 900000000 : ℤ) : ℚ) := by
  obtain ⟨k, hk, hfive⟩ := baseCapped_five i
  rw [backoffInterval_eq_jitter, hfive]
  obtain ⟨hlo, hhi⟩ := jitterInterval_bounds k hk r h0 h1
  have hloq : ((4 * k : ℤ) : ℚ) ≤ ((jitterInterval (5 * k) r : ℤ) : ℚ) := by
    exact_mod_cast hlo
  have hhiq : ((jitterInterval (5 * k) r : ℤ) : ℚ) ≤ ((6 * k : ℤ) : ℚ) := by
    exact_mod_cast hhi
  constructor
  · push_cast at hloq ⊢
    linarith
  · push_cast at hhiq ⊢
    linarith

/-- The retry loop makes at most `fuel` SetNX attempts. -/
theorem lockLoop_attempts_length (env : LockEnv) (i fuel : ℕ) :
    (lockLoop env i fuel).attempts.length ≤ fuel := by
  induction fuel generalizing i with
  | zero => simp [lockLoop]
  | succ n ih =>
    unfold lockLoop
    cases hs : env.setnx i with
    | err e => simp
    | acquired => simp
    | held =>
      by_cases hb : i = redisLockMaxRetry - 1
      · simp [hb]
      · rw [if_neg hb]
        by_cases hc : env.cancelledDuringWait i
        · simp [hc]
        · simp only [hc, Bool.false_eq_true, if_false, List.length_cons]
          exact Nat.succ_le_succ (ih (i + 1))

/-- Every wait entered by the retry loop happens strictly before the final
attempt, and its duration is the jittered backoff of its attempt index. -/
theorem lockLoop_waits (env : LockEnv) (i fuel : ℕ)
    (hif : i + fuel ≤ redisLockMaxRetry) :
    ∀ p ∈ (lockLoop env i fuel).waits,
      p.1 + 1 < redisLockMaxRetry ∧
      p.2 = backoffInterval (p.1 : ℤ) (env.rand p.1) := by
  induction fuel generalizing i with
  | zero => simp [lockLoop]
  | succ n ih =>
    intro p hp
    unfold lockLoop at hp
    cases hs : env.setnx i <;> rw [hs] at hp
    · simp at hp
    · simp at hp
    · by_cases hb : i = redisLockMaxRetry - 1
      · rw [if_pos hb] at hp
        simp at hp
      · rw [if_neg hb] at hp
        have hmr : redisLockMaxRetry = 3 := rfl
        by_cases hc : env.cancelledDuringWait i
        · simp only [hc, if_true] at hp
          simp at hp
          rw [hp]
          exact ⟨by omega, rfl⟩
        · simp only [hc, Bool.false_eq_true, if_false, List.mem_cons] at hp
          rcases hp with hp | hp
          · rw [hp]
            exact ⟨by omega, rfl⟩
          · exact ih (i + 1) (by omega) p hp

/-- C7: at most 3 SetNX attempts; every wait happens before the final
attempt, and its duration backoffInterval(i) lies within ±20% of
min(250ms·2^i, 900ms), given that the random draw lies in [0,1). -/
theorem claim_C7 (env : LockEnv)
    (hr : ∀ j, 0 ≤ env.rand j ∧ env.rand j < 1) :
    (redisLockerLock env).attempts.length ≤ 3 ∧
    (∀ p ∈ (redisLockerLock env).waits,
        p.1 + 1 < redisLockMaxRetry ∧
        p.2 = backoffInterval (p.1 : ℤ) (env.rand p.1) ∧
        ((4 : ℚ)/5) * ((min ((250000000 : ℤ) * 2 ^ p.1) 900000000 : ℤ) : ℚ) ≤
          (p.2 : ℚ) ∧
        (p.2 : ℚ) ≤
          ((6 : ℚ)/5) *
            ((min ((250000000 : ℤ) * 2 ^ p.1) 900000000 : ℤ) : ℚ)) := by
  constructor
  · exact lockLoop_attempts_length env 0 redisLockMaxRetry
  · intro p hp
    obtain ⟨h1, h2⟩ :=
      lockLoop_waits env 0 redisLockMaxRetry (by omega) p hp
    obtain ⟨hlo, hhi⟩ :=
      backoffInterval_bounds p.1 (env.rand p.1) (hr p.1).1 (hr p.1).2
    rw [h2]
    exact ⟨h1, rfl, hlo, hhi⟩

/-- Witness for C7 at a concrete lock environment (lock held throughout,
random draw 1/2). -/
theorem claim_C7_witness :
    (redisLockerLock ⟨fun _ => .held, fun _ => false,
        fun _ => 1/2⟩).attempts.length ≤ 3 ∧
    (∀ p ∈ (redisLockerLock ⟨fun _ => .held, fun _ => false,
          fun _ => 1/2⟩).waits,
        p.1 + 1 < redisLockMaxRetry ∧
        p.2 = backoffInterval (p.1 : ℤ) ((1 : ℚ)/2) ∧
        ((4 : ℚ)/5) * ((min ((250000000 : ℤ) * 2 ^ p.1) 900000000 : ℤ) : ℚ) ≤
          (p.2 : ℚ) ∧
        (p.2 : ℚ) ≤
          ((6 : ℚ)/5) *
            ((min ((250000000 : ℤ) * 2 ^ p.1) 900000000 : ℤ) : ℚ)) :=
  claim_C7 ⟨fun _ => .held, fun _ => false, fun _ => 1/2⟩
    (fun _ => ⟨by norm_num, by norm_num⟩)

/-- C8: if the cancellation signal fires during the wait after attempt i
(the lock being held by another process up to then), Lock returns the
context's cancellation error — not ErrLockAcquire — without holding the
lock, and GetAccessToken surfaces exactly that cancellation error. -/
theorem claim_C8 (lenv : LockEnv) (env : ManagerEnv) (i : ℕ)
    (t1 t2 : Option TokenInfo)
    (hheld : ∀ j, j ≤ i → lenv.setnx j = .held)
    (hnc : ∀ j, j < i → lenv.cancelledDuringWait j = false)
    (hc : lenv.cancelledDuringWait i = true)
    (hi : i + 1 < redisLockMaxRetry)
    (h1 : env.get1 = .ok t1) (h2 : hitToken t1 env.now = none)
    (h3 : env.get2 = .ok t2) (h4 : hitToken t2 env.now = none)
    (h5 : env.lockConfigured = true)
    (h6 : env.lockResult = (redisLockerLock lenv).result) :
    (redisLockerLock lenv).result = .error .ctxCanceled ∧
    GoErr.ctxCanceled ≠ GoErr.lockAcquireFailed ∧
    (redisLockerLock lenv).result ≠ .ok () ∧
    getAccessToken env =
      ⟨"", Code.lock, some .ctxCanceled, true, true, false, false⟩ := by
  have hmr : redisLockMaxRetry = 3 := rfl
  rw [hmr] at hi
  have hi2 : i < 2 := by omega
  have hres : (redisLockerLock lenv).result = .error .ctxCanceled := by
    interval_cases i
    · simp [redisLockerLock, lockLoop, redisLockMaxRetry,
        hheld 0 le_rfl, hc]
    · simp [redisLockerLock, lockLoop, redisLockMaxRetry,
        hheld 0 (by omega), hheld 1 le_rfl, hnc 0 (by omega), hc]
  refine ⟨hres, by decide, ?_, ?_⟩
  · rw [hres]
    simp
  · exact getAccessToken_lockErr env .ctxCanceled t1 t2 h1 h2 h3 h4 h5
      (h6.trans hres)

/-- Witness for C8: cancellation during the first wait. -/
theorem claim_C8_witness :
    (redisLockerLock ⟨fun _ => .held, fun _ => true,
        fun _ => 0⟩).result = .error .ctxCanceled ∧
    GoErr.ctxCanceled ≠ GoErr.lockAcquireFailed ∧
    (redisLockerLock ⟨fun _ => .held, fun _ => true,
        fun _ => 0⟩).result ≠ .ok () ∧
    getAccessToken ⟨0, .ok none, .ok none, .ok none, true,
        .error .ctxCanceled,
        ⟨none, none, 200, none, false, ⟨"t", 7200, 0, ""⟩⟩, none⟩ =
      ⟨"", Code.lock, some .ctxCanceled, true, true, false, false⟩ :=
  claim_C8 ⟨fun _ => .held, fun _ => true, fun _ => 0⟩
    ⟨0, .ok none, .ok none, .ok none, true, .error .ctxCanceled,
      ⟨none, none, 200, none, false, ⟨"t", 7200, 0, ""⟩⟩, none⟩
    0 none none (fun _ _ => rfl) (fun j hj => absurd hj (Nat.not_lt_zero j))
    rfl (by decide) rfl rfl rfl rfl rfl rfl

/-- Every error leaving fetchTokenFromWeChat is classified http,
invalid-response or api-error — never CodeOK or CodeCacheSet. -/
theorem fetch_error_cases (fe : FetchEnv) (now : Int) (c : Code) (e : GoErr)
    (h : fetchTokenFromWeChat fe now = .error (c, e)) :
    c = Code.http ∨ c = Code.invalidResponse ∨ c = Code.apiError := by
  unfold fetchTokenFromWeChat at h
  repeat' split at h
  all_goals simp_all

/-- A successful fetch never carries an empty token (the empty-token guard). -/
theorem fetch_ok_nonempty (fe : FetchEnv) (now : Int) (t : TokenInfo)
    (h : fetchTokenFromWeChat fe now = .ok t) : t.accessToken ≠ "" := by
  unfold fetchTokenFromWeChat at h
  repeat' split at h
  all_goals simp_all
  rw [← h]
  assumption

/-- In the post-lock tail, the error is nil exactly on CodeOK. -/
theorem afterLock_err_iff (env : ManagerEnv) (lc : Bool) :
    ((afterLock env lc).err = none ↔ (afterLock env lc).code = Code.ok) := by
  unfold afterLock
  cases hg3 : env.get3 with
  | error e => simp [hg3]
  | ok t3 =>
    cases hh3 : hitToken t3 env.now with
    | some s => simp [hg3, hh3]
    | none =>
      cases hf : fetchTokenFromWeChat env.fetchEnv env.now with
      | error ce =>
        obtain ⟨c, e⟩ := ce
        have hc := fetch_error_cases _ _ _ _ hf
        have hcok : c ≠ Code.ok := by
          rcases hc with h | h | h <;> subst h <;> decide
        simp [hg3, hh3, hf, hcok]
      | ok newTok =>
        cases hset : env.setResult with
        | none => simp [hg3, hh3, hf, hset]
        | some e => simp [hg3, hh3, hf, hset]

/-- In the post-lock tail, the token is non-empty exactly on CodeOK or
CodeCacheSet, provided the third cache read yields no empty-token record. -/
theorem afterLock_token_iff (env : ManagerEnv) (lc : Bool)
    (hne3 : ∀ t : TokenInfo, env.get3 = .ok (some t) → t.accessToken ≠ "") :
    ((afterLock env lc).token ≠ "" ↔
      ((afterLock env lc).code = Code.ok ∨
       (afterLock env lc).code = Code.cacheSet)) := by
  unfold afterLock
  cases hg3 : env.get3 with
  | error e => simp [hg3]
  | ok t3 =>
    cases hh3 : hitToken t3 env.now with
    | some s =>
      obtain ⟨ti, hti, hs, _⟩ := hitToken_some t3 env.now s hh3
      have hne : ti.accessToken ≠ "" := hne3 ti (by rw [hg3, hti])
      subst hs
      simp [hg3, hh3, hne]
    | none =>
      cases hf : fetchTokenFromWeChat env.fetchEnv env.now with
      | error ce =>
        obtain ⟨c, e⟩ := ce
        have hc := fetch_error_cases _ _ _ _ hf
        have hcok : c ≠ Code.ok := by
          rcases hc with h | h | h <;> subst h <;> decide
        have hccs : c ≠ Code.cacheSet := by
          rcases hc with h | h | h <;> subst h <;> decide
        simp [hg3, hh3, hf, hcok, hccs]
      | ok newTok =>
        have hne := fetch_ok_nonempty _ _ _ hf
        cases hset : env.setResult with
        | none => simp [hg3, hh3, hf, hset, hne]
        | some e => simp [hg3, hh3, hf, hset, hne]

/-- Counterexample to C10 as stated: a cache hit on a stored record whose
token string is empty returns CodeOK with an empty token, breaking the
claimed "token non-empty iff CodeOK or CodeCacheSet" biconditional. -/
theorem claim_C10_counterexample :
    ¬ (((getAccessToken ⟨0, .ok (some ⟨"", 0, 1000000000000⟩), .ok none,
            .ok none, false, .ok (),
            ⟨none, none, 200, none, false, ⟨"t", 7200, 0, ""⟩⟩,
            none⟩).token ≠ "") ↔
        ((getAccessToken ⟨0, .ok (some ⟨"", 0, 1000000000000⟩), .ok none,
            .ok none, false, .ok (),
            ⟨none, none, 200, none, false, ⟨"t", 7200, 0, ""⟩⟩,
            none⟩).code = Code.ok ∨
         (getAccessToken ⟨0, .ok (some ⟨"", 0, 1000000000000⟩), .ok none,
            .ok none, false, .ok (),
            ⟨none, none, 200, none, false, ⟨"t", 7200, 0, ""⟩⟩,
            none⟩).code = Code.cacheSet)) := by
  decide

/-- C10 (amended): the returned error is nil iff the classification is
CodeOK, unconditionally; and provided every record the cache yields has a
non-empty token string (as is the case when the cache is populated only by
the Manager itself), the returned token is non-empty iff the classification
is CodeOK or CodeCacheSet. -/
theorem claim_C10 (env : ManagerEnv) :
    ((getAccessToken env).err = none ↔ (getAccessToken env).code = Code.ok) ∧
    ((∀ t : TokenInfo,
        (env.get1 = .ok (some t) ∨ env.get2 = .ok (some t) ∨
         env.get3 = .ok (some t)) → t.accessToken ≠ "") →
      ((getAccessToken env).token ≠ "" ↔
        ((getAccessToken env).code = Code.ok ∨
         (getAccessToken env).code = Code.cacheSet))) := by
  unfold getAccessToken
  cases hg1 : env.get1 with
  | error e => simp [hg1]
  | ok t1 =>
    cases hh1 : hitToken t1 env.now with
    | some s =>
      obtain ⟨ti, hti, hs, _⟩ := hitToken_some t1 env.now s hh1
      subst hs
      refine ⟨by simp [hg1, hh1], fun hne => ?_⟩
      have hx : ti.accessToken ≠ "" := hne ti (Or.inl (by rw [hti]))
      simp [hg1, hh1, hx]
    | none =>
      cases hg2 : env.get2 with
      | error e => simp [hg1, hh1, hg2]
      | ok t2 =>
        cases hh2 : hitToken t2 env.now with
        | some s =>
          obtain ⟨ti, hti, hs, _⟩ := hitToken_some t2 env.now s hh2
          subst hs
          refine ⟨by simp [hg1, hh1, hg2, hh2], fun hne => ?_⟩
          have hx : ti.accessToken ≠ "" :=
            hne ti (Or.inr (Or.inl (by rw [hti])))
          simp [hg1, hh1, hg2, hh2, hx]
        | none =>
          cases hlc : env.lockConfigured with
          | false =>
            simp only [hg1, hh1, hg2, hh2, hlc, Bool.false_eq_true, if_false]
            exact ⟨afterLock_err_iff env false,
              fun hne => afterLock_token_iff env false
                (fun t ht => hne t (Or.inr (Or.inr ht)))⟩
          | true =>
            simp only [hg1, hh1, hg2, hh2, hlc, if_true]
            cases hlr : env.lockResult with
            | error e => simp [hg1, hh1, hg2, hh2, hlc, hlr]
            | ok u =>
              simp only [hlr]
              exact ⟨afterLock_err_iff env true,
                fun hne => afterLock_token_iff env true
                  (fun t ht => hne t (Or.inr (Or.inr ht)))⟩

/-- Witness for C10 (amended) at a concrete environment whose cache reads
yield only non-empty tokens. -/
theorem claim_C10_witness :
    ((getAccessToken ⟨0, .ok (some ⟨"tok", 7200, 1000000000000⟩), .ok none,
        .ok none, false, .ok (),
        ⟨none, none, 200, none, false, ⟨"t", 7200, 0, ""⟩⟩, none⟩).err = none ↔
      (getAccessToken ⟨0, .ok (some ⟨"tok", 7200, 1000000000000⟩), .ok none,
        .ok none, false, .ok (),
        ⟨none, none, 200, none, false, ⟨"t", 7200, 0, ""⟩⟩,
        none⟩).code = Code.ok) ∧
    ((getAccessToken ⟨0, .ok (some ⟨"tok", 7200, 1000000000000⟩), .ok none,
        .ok none, false, .ok (),
        ⟨none, none, 200, none, false, ⟨"t", 7200, 0, ""⟩⟩,
        none⟩).token ≠ "" ↔
      ((getAccessToken ⟨0, .ok (some ⟨"tok", 7200, 1000000000000⟩), .ok none,
        .ok none, false, .ok (),
        ⟨none, none, 200, none, false, ⟨"t", 7200, 0, ""⟩⟩,
        none⟩).code = Code.ok ∨
       (getAccessToken ⟨0, .ok (some ⟨"tok", 7200, 1000000000000⟩), .ok none,
        .ok none, false, .ok (),
        ⟨none, none, 200, none, false, ⟨"t", 7200, 0, ""⟩⟩,
        none⟩).code = Code.cacheSet)) :=
  ⟨(claim_C10 _).1,
   (claim_C10 _).2 (fun t ht => by
      rcases ht with h | h | h <;> simp_all
      rw [← h]
      decide)⟩

end Wxgo
